import Mathlib

/-!
Verification of the vectorized chunk-iteration protocol of
`be/src/storage/chunk_iterator.h` (StarRocks): the three schema views
(base, dictionary-encoded, projected output), the default fetch-variant
policies, and the timing decorator `timed_chunk_iterator`.

The `ChunkIterator` class is embedded shallowly: its mutable members become a
Lean structure, each member function becomes a pure function from the old
state (plus arguments) to its return value and the new state.  Supporting
types that the header only references (`Field`, `Schema`, `Status`,
`RowSourceMask`, the global-dictionary map) live in other files of the
repository and are modelled from the spec, as marked on each definition.
-/

namespace StarRocks

/-- Modelled from the spec: the logical column type of a `Field`
(`column/schema.h` is not in src/).  Only `TYPE_INT` is distinguished,
because the header's comment says a dictionary-encoded field "will be
rewritten as INT"; every other type is an unconstrained code. -/
inductive LogicalType where
  | TYPE_INT
  | TYPE_VARCHAR
  | OTHER (code : Nat)
deriving DecidableEq

/-- Modelled from the spec: a `Field` is column metadata with a stable
integer column id and a logical type (`column/schema.h` is not in src/). -/
structure Field where
  id : Nat
  type : LogicalType
deriving DecidableEq

/-- Modelled from the spec: `Field::convert_to_dict_field` produces the
lowered/encoded (surrogate-key) representation of a field: same column id,
type rewritten to INT ("If a Field uses the global dictionary strategy, the
field will be rewritten as INT"). -/
def Field.convert_to_dict_field (f : Field) : Field :=
  { f with type := LogicalType.TYPE_INT }

/-- Modelled from the spec: a `Schema` is an ordered sequence of fields
(`column/schema.h` is not in src/).  `append` and `num_fields` mirror the
operations the header uses. -/
structure Schema where
  fields : List Field
deriving DecidableEq

/-- The number of fields of a schema (`Schema::num_fields`). -/
def Schema.num_fields (s : Schema) : Nat :=
  s.fields.length

/-- Append one field at the end of a schema (`Schema::append`). -/
def Schema.append (s : Schema) (f : Field) : Schema :=
  ⟨s.fields ++ [f]⟩

/-- Modelled from the spec: the error taxonomy of the `Status` result type
(`common/status.h` is not in src/): Ok, EndOfFile, NotSupported with a
message, and a generic failure surfaced verbatim. -/
inductive Status where
  | OK
  | EndOfFile
  | NotSupported (msg : String)
  | InternalError (msg : String)
deriving DecidableEq

/-- Modelled from the spec: `ColumnIdToGlobalDictMap` maps column ids to
dictionary metadata (`runtime/global_dict/types.h` is not in src/).
`init_encoded_schema` consults only key membership (`dict_maps.count(cid)`),
so the map is represented by its list of keys. -/
abbrev ColumnIdToGlobalDictMap := List Nat

/-- Modelled from the spec: a `Chunk` is an opaque caller-owned columnar
batch; this layer only passes it through, so only its row count is kept. -/
structure Chunk where
  num_rows : Nat
deriving DecidableEq

/-- Modelled from the spec: a `RowSourceMask` is a per-row tag recording the
originating input stream and a discard flag
(`storage/row_source_mask.h` is not in src/). -/
structure RowSourceMask where
  source : Nat
  ignore : Bool
deriving DecidableEq

/-- Modelled from the spec: the default soft chunk-size target, a system
constant whose defining header is not in src/; its value is irrelevant to
the contract. -/
def DEFAULT_CHUNK_SIZE : Int := 4096

/-- The mutable state of a `ChunkIterator`: base schema `_schema`
(immutable after construction), lazily derived `_encoded_schema` and
`_output_schema`, the projection flag `_is_init_output_schema`, and the
chunk-size target. -/
structure ChunkIterator where
  _schema : Schema
  _encoded_schema : Schema
  _output_schema : Schema
  _is_init_output_schema : Bool
  _chunk_size : Int
deriving DecidableEq

/-- The `ChunkIterator(Schema)` constructor: binds the base schema; the
derived schemas start empty and the projection flag false. -/
def ChunkIterator.new (schema : Schema) : ChunkIterator :=
  { _schema := schema
    _encoded_schema := ⟨[]⟩
    _output_schema := ⟨[]⟩
    _is_init_output_schema := false
    _chunk_size := DEFAULT_CHUNK_SIZE }

/-- The `ChunkIterator(Schema, int)` constructor, also binding a chunk-size
target. -/
def ChunkIterator.new_sized (schema : Schema) (chunk_size : Int) : ChunkIterator :=
  { ChunkIterator.new schema with _chunk_size := chunk_size }

/-- Accessor `schema()`: the base schema. -/
def ChunkIterator.schema (it : ChunkIterator) : Schema :=
  it._schema

/-- Accessor `chunk_size()`. -/
def ChunkIterator.chunk_size (it : ChunkIterator) : Int :=
  it._chunk_size

/-- Accessor `encoded_schema()`: the encoded schema when non-empty,
otherwise the base schema
(`_encoded_schema.num_fields() == 0 ? _schema : _encoded_schema`). -/
def ChunkIterator.encoded_schema (it : ChunkIterator) : Schema :=
  if it._encoded_schema.num_fields = 0 then it._schema else it._encoded_schema

/-- `init_encoded_schema(dict_maps)`: walks the base schema's fields in
order, appending onto `_encoded_schema` the dictionary-encoded form of each
field whose column id is a key of `dict_maps`, and the field itself
otherwise; always returns OK. -/
def ChunkIterator.init_encoded_schema (it : ChunkIterator)
    (dict_maps : ColumnIdToGlobalDictMap) : Status × ChunkIterator :=
  let enc := it.schema.fields.foldl
    (fun (s : Schema) (field : Field) =>
      if dict_maps.contains field.id then
        s.append (Field.convert_to_dict_field field)
      else
        s.append field)
    it._encoded_schema
  (Status.OK, { it with _encoded_schema := enc })

/-- `init_output_schema(unused_output_column_ids)` in release-build
semantics (the `DCHECK` compiles to nothing): if already initialized, return
OK leaving the state untouched; otherwise append onto `_output_schema` every
field of `encoded_schema()` whose column id is not in the unused set, set
the flag, and return OK. -/
def ChunkIterator.init_output_schema (it : ChunkIterator)
    (unused_output_column_ids : List Nat) : Status × ChunkIterator :=
  if it._is_init_output_schema then
    (Status.OK, it)
  else
    let out := it.encoded_schema.fields.foldl
      (fun (s : Schema) (field : Field) =>
        if !(unused_output_column_ids.contains field.id) then
          s.append field
        else
          s)
      it._output_schema
    (Status.OK, { it with _output_schema := out, _is_init_output_schema := true })

/-- `init_output_schema` in debug-build semantics, where
`DCHECK(_output_schema.num_fields() > 0)` is active: `none` models the
assertion halting execution when the computed output schema is empty;
otherwise the behaviour agrees with the release-build semantics. -/
def ChunkIterator.init_output_schema_dbg (it : ChunkIterator)
    (unused_output_column_ids : List Nat) : Option (Status × ChunkIterator) :=
  if it._is_init_output_schema then
    some (Status.OK, it)
  else
    let out := it.encoded_schema.fields.foldl
      (fun (s : Schema) (field : Field) =>
        if !(unused_output_column_ids.contains field.id) then
          s.append field
        else
          s)
      it._output_schema
    if out.num_fields > 0 then
      some (Status.OK, { it with _output_schema := out, _is_init_output_schema := true })
    else
      none

/-- Accessor `output_schema()`: the output schema once the projection is
initialized, otherwise `encoded_schema()`. -/
def ChunkIterator.output_schema (it : ChunkIterator) : Schema :=
  if it._is_init_output_schema then it._output_schema else it.encoded_schema

/-- Default implementation of `do_get_next(Chunk*, vector<uint32_t>*)`: the
row-id fetch variant rejects every input with NotSupported unless the
concrete iterator overrides it.  The arguments are untouched. -/
def ChunkIterator.do_get_next_rowid_default (chunk : Chunk) (rowid : List Nat) :
    Status :=
  Status.NotSupported "Chunk* chunk, vector<uint32_t>* rowid) not supported"

/-- Default implementation of `do_get_next(Chunk*, std::vector<RowSourceMask>*)`:
with a null mask buffer it delegates to the plain `do_get_next(chunk)`
(represented by the virtual `fetch` argument, which returns the status and
the chunk it filled); with a non-null buffer it returns NotSupported without
touching the chunk or producing masks. -/
def ChunkIterator.do_get_next_masks_default (fetch : Chunk → Status × Chunk)
    (chunk : Chunk) (source_masks : Option (List RowSourceMask)) :
    Status × Chunk × Option (List RowSourceMask) :=
  match source_masks with
  | none =>
      let r := fetch chunk
      (r.1, r.2, none)
  | some m =>
      (Status.NotSupported "get chunk with sources not supported", chunk, some m)

/-- Modelled from the spec: the observable behaviour of the inner iterator
wrapped by `timed_chunk_iterator` — its schema, chunk size, merged-rows
count, closed flag, and one invocation of each fetch variant, each returning
its status together with the chunk / row-id / mask outputs it produced. -/
structure InnerIterBehavior where
  schema : Schema
  chunk_size : Int
  merged_rows : Nat
  closed : Bool
  do_get_next : Chunk → Status × Chunk
  do_get_next_rowid : Chunk → List Nat → Status × Chunk × List Nat
  do_get_next_masks : Chunk → Option (List RowSourceMask) →
    Status × Chunk × Option (List RowSourceMask)

/-- Closing the inner iterator releases its resources. -/
def InnerIterBehavior.close (i : InnerIterBehavior) : InnerIterBehavior :=
  { i with closed := true }

/-- Modelled from the spec: the timing decorator returned by
`timed_chunk_iterator(iter, counter)` — a wrapper holding the inner iterator
and the external elapsed-time accumulator (its defining .cpp file is not in
src/; only the declaration appears in chunk_iterator.h). -/
structure TimedChunkIterator where
  inner : InnerIterBehavior
  counter : Int

/-- Modelled from the spec: `timed_chunk_iterator(iter, counter)` wraps the
inner iterator with the external accumulator. -/
def timed_chunk_iterator (iter : InnerIterBehavior) (counter : Int) :
    TimedChunkIterator :=
  { inner := iter, counter := counter }

/-- The wrapper forwards `schema()` unchanged. -/
def TimedChunkIterator.schema (t : TimedChunkIterator) : Schema :=
  t.inner.schema

/-- The wrapper forwards `chunk_size()` unchanged. -/
def TimedChunkIterator.chunk_size (t : TimedChunkIterator) : Int :=
  t.inner.chunk_size

/-- The wrapper forwards `merged_rows()` unchanged. -/
def TimedChunkIterator.merged_rows (t : TimedChunkIterator) : Nat :=
  t.inner.merged_rows

/-- The wrapper forwards `close()` to the inner iterator, leaving the
counter alone. -/
def TimedChunkIterator.close (t : TimedChunkIterator) : TimedChunkIterator :=
  { t with inner := t.inner.close }

/-- The wrapper's plain `get_next`: measures the elapsed wall time of the
inner call (`elapsed`, supplied by the clock) and adds it to the counter,
forwarding the inner status and chunk untouched. -/
def TimedChunkIterator.get_next (t : TimedChunkIterator) (elapsed : Int)
    (chunk : Chunk) : Status × Chunk × TimedChunkIterator :=
  let r := t.inner.do_get_next chunk
  (r.1, r.2, { t with counter := t.counter + elapsed })

/-- The wrapper's row-id `get_next`: times the inner call, forwarding
status, chunk and row ids untouched. -/
def TimedChunkIterator.get_next_rowid (t : TimedChunkIterator) (elapsed : Int)
    (chunk : Chunk) (rowid : List Nat) :
    Status × Chunk × List Nat × TimedChunkIterator :=
  let r := t.inner.do_get_next_rowid chunk rowid
  (r.1, r.2.1, r.2.2, { t with counter := t.counter + elapsed })

/-- The wrapper's masked `get_next`: times the inner call, forwarding
status, chunk and masks untouched. -/
def TimedChunkIterator.get_next_masks (t : TimedChunkIterator) (elapsed : Int)
    (chunk : Chunk) (source_masks : Option (List RowSourceMask)) :
    Status × Chunk × Option (List RowSourceMask) × TimedChunkIterator :=
  let r := t.inner.do_get_next_masks chunk source_masks
  (r.1, r.2.1, r.2.2, { t with counter := t.counter + elapsed })

/-! Concrete fixtures used by the witnesses: a 3-field base schema with
column ids 1, 2, 3, as in the spec's scenarios. -/

/-- Fixture: field with column id 1. -/
def fieldA : Field := ⟨1, LogicalType.TYPE_VARCHAR⟩

/-- Fixture: field with column id 2. -/
def fieldB : Field := ⟨2, LogicalType.TYPE_VARCHAR⟩

/-- Fixture: field with column id 3. -/
def fieldC : Field := ⟨3, LogicalType.OTHER 7⟩

/-- Fixture: a 3-field base schema. -/
def baseSchema3 : Schema := ⟨[fieldA, fieldB, fieldC]⟩

/-- Fixture: a freshly constructed iterator over the 3-field schema. -/
def iter0 : ChunkIterator := ChunkIterator.new baseSchema3

/-! Helper lemmas: the append-only loops of the two initializers compute a
map (dictionary substitution) and a filter (projection) over the field
list. -/

/-- The encoding loop of `init_encoded_schema` appends, onto any
accumulator schema, the pointwise dictionary substitution of the field
list. -/
theorem foldl_encode_eq (dict : ColumnIdToGlobalDictMap) (l : List Field)
    (acc : Schema) :
    l.foldl
      (fun (s : Schema) (field : Field) =>
        if dict.contains field.id then
          s.append (Field.convert_to_dict_field field)
        else
          s.append field)
      acc
    = ⟨acc.fields ++ l.map (fun f =>
        if dict.contains f.id then Field.convert_to_dict_field f else f)⟩ := by
  induction l generalizing acc with
  | nil => simp
  | cons f t ih =>
    simp only [Schema.append] at ih ⊢
    simp at ih
    by_cases h : f.id ∈ dict <;>
      simp [h, ih]

/-- The projection loop of `init_output_schema` appends, onto any
accumulator schema, the fields surviving the unused-id filter, in order. -/
theorem foldl_project_eq (unused : List Nat) (l : List Field) (acc : Schema) :
    l.foldl
      (fun (s : Schema) (field : Field) =>
        if !(unused.contains field.id) then s.append field else s)
      acc
    = ⟨acc.fields ++ l.filter (fun f => !(unused.contains f.id))⟩ := by
  induction l generalizing acc with
  | nil => simp
  | cons f t ih =>
    simp only [Schema.append] at ih ⊢
    simp at ih
    by_cases h : f.id ∈ unused <;>
      simp [h, ih]

/-- State characterization of `init_encoded_schema`: it returns OK and
appends the dictionary substitution of the base schema's fields onto the
existing `_encoded_schema`, leaving every other member untouched. -/
theorem init_encoded_schema_state (it : ChunkIterator)
    (dict : ColumnIdToGlobalDictMap) :
    it.init_encoded_schema dict
      = (Status.OK, { it with _encoded_schema :=
          ⟨it._encoded_schema.fields ++ it._schema.fields.map
            (fun f => if dict.contains f.id then
              Field.convert_to_dict_field f else f)⟩ }) := by
  unfold ChunkIterator.init_encoded_schema ChunkIterator.schema
  rw [foldl_encode_eq]

/-- State characterization of an initializing `init_output_schema` call: it
returns OK, appends the surviving fields of `encoded_schema()` onto
`_output_schema`, and sets the projection flag. -/
theorem init_output_schema_state (it : ChunkIterator) (unused : List Nat)
    (hflag : it._is_init_output_schema = false) :
    it.init_output_schema unused
      = (Status.OK, { it with
          _output_schema := ⟨it._output_schema.fields
            ++ it.encoded_schema.fields.filter
              (fun f => !(unused.contains f.id))⟩,
          _is_init_output_schema := true }) := by
  unfold ChunkIterator.init_output_schema
  rw [foldl_project_eq]
  simp [hflag]

/-- After any `init_output_schema` call the projection flag is set. -/
theorem init_output_schema_sets_flag (it : ChunkIterator) (unused : List Nat) :
    ((it.init_output_schema unused).2)._is_init_output_schema = true := by
  unfold ChunkIterator.init_output_schema
  by_cases h : it._is_init_output_schema <;> simp [h]

/-- C1: on an iterator whose encoded schema has not yet been built,
`init_encoded_schema(dict)` returns OK and produces an encoded schema with
the same field count and order as the base schema, in which each field whose
column id has a dictionary entry is replaced by its encoded
(dictionary/surrogate) form and every other field passes through unchanged;
with an empty dictionary map the encoded schema equals the base schema. -/
theorem init_encoded_schema_correct (it : ChunkIterator)
    (dict : ColumnIdToGlobalDictMap) (henc : it._encoded_schema = ⟨[]⟩) :
    (it.init_encoded_schema dict).1 = Status.OK
    ∧ ((it.init_encoded_schema dict).2).encoded_schema.num_fields
        = it._schema.num_fields
    ∧ ((it.init_encoded_schema dict).2).encoded_schema.fields
        = it._schema.fields.map
            (fun f => if dict.contains f.id then
              Field.convert_to_dict_field f else f)
    ∧ (dict = [] →
        ((it.init_encoded_schema dict).2).encoded_schema = it._schema) := by
  rw [init_encoded_schema_state it dict, henc]
  unfold ChunkIterator.encoded_schema
  refine ⟨rfl, ?_, ?_, ?_⟩
  · by_cases hb : it._schema.fields = [] <;>
      simp [hb, Schema.num_fields]
  · by_cases hb : it._schema.fields = [] <;>
      simp [hb, Schema.num_fields]
  · rintro rfl
    by_cases hb : it._schema.fields = [] <;>
      simp [hb, Schema.num_fields]

/-- Witness for C1 (Scenario B): a dictionary covering column id 2 of the
3-field base schema yields the encoded schema
[field 1 unchanged, field 2 encoded, field 3 unchanged]. -/
theorem init_encoded_schema_correct_witness :
    ((iter0.init_encoded_schema [2]).2).encoded_schema.fields
      = [fieldA, Field.convert_to_dict_field fieldB, fieldC] := by
  have h := init_encoded_schema_correct iter0 [2] rfl
  rw [h.2.2.1]
  rfl

/-- C2: `init_output_schema` is idempotent — once a first call has run, a
subsequent call with any argument returns OK and leaves the whole iterator
state exactly as the first call established it. -/
theorem init_output_schema_idempotent (it : ChunkIterator) (u1 u2 : List Nat) :
    ((it.init_output_schema u1).2).init_output_schema u2
      = (Status.OK, (it.init_output_schema u1).2) := by
  have h := init_output_schema_sets_flag it u1
  generalize (it.init_output_schema u1).2 = x at h ⊢
  unfold ChunkIterator.init_output_schema
  simp [h]

/-- C3: an initializing `init_output_schema(unused)` call returns OK, and
the resulting `output_schema()` consists of exactly those fields of
`encoded_schema()` whose id is not in the unused set, in the same relative
order. -/
theorem init_output_schema_first_call (it : ChunkIterator) (unused : List Nat)
    (hflag : it._is_init_output_schema = false)
    (hout : it._output_schema = ⟨[]⟩) :
    (it.init_output_schema unused).1 = Status.OK
    ∧ ((it.init_output_schema unused).2).output_schema.fields
        = it.encoded_schema.fields.filter
            (fun f => !(unused.contains f.id)) := by
  rw [init_output_schema_state it unused hflag]
  refine ⟨rfl, ?_⟩
  simp [ChunkIterator.output_schema, hout]

/-- Witness for C3 (Scenario C): dropping column id 1 from the 3-field
schema leaves [field 2, field 3] in their original relative order. -/
theorem init_output_schema_first_call_witness :
    ((iter0.init_output_schema [1]).2).output_schema.fields
      = [fieldB, fieldC] := by
  have h := init_output_schema_first_call iter0 [1] rfl rfl
  rw [h.2]
  rfl

/-- C4: `output_schema()` resolves via the three-tier fallback: the output
schema when the projection is initialized, otherwise the encoded schema when
it has at least one field, otherwise the base schema. -/
theorem output_schema_three_tier (it : ChunkIterator) :
    it.output_schema =
      if it._is_init_output_schema then it._output_schema
      else if it._encoded_schema.num_fields = 0 then it._schema
      else it._encoded_schema := by
  unfold ChunkIterator.output_schema ChunkIterator.encoded_schema
  rfl

/-- C5: the default row-id fetch variant rejects every input — whatever
chunk and row-id buffer are passed — with a NotSupported status. -/
theorem do_get_next_rowid_default_not_supported (chunk : Chunk)
    (rowid : List Nat) :
    ChunkIterator.do_get_next_rowid_default chunk rowid
      = Status.NotSupported
          "Chunk* chunk, vector<uint32_t>* rowid) not supported" :=
  rfl

/-- C6: the default masked fetch variant with a null mask buffer behaves
exactly like the plain fetch (same status, same chunk, still no masks), and
with a non-null mask buffer fails with NotSupported, leaving the chunk and
the buffer untouched. -/
theorem do_get_next_masks_default_policy (fetch : Chunk → Status × Chunk)
    (chunk : Chunk) (masks : List RowSourceMask) :
    ChunkIterator.do_get_next_masks_default fetch chunk none
        = ((fetch chunk).1, (fetch chunk).2, none)
    ∧ ChunkIterator.do_get_next_masks_default fetch chunk (some masks)
        = (Status.NotSupported "get chunk with sources not supported",
           chunk, some masks) :=
  ⟨rfl, rfl⟩

/-- C7: under debug-build semantics (the DCHECK is active), an initializing
`init_output_schema` call whose unused-id set covers every field id of
`encoded_schema()` trips the precondition check and halts, instead of
returning success with an empty output schema. -/
theorem init_output_schema_empty_projection_halts (it : ChunkIterator)
    (unused : List Nat)
    (hflag : it._is_init_output_schema = false)
    (hout : it._output_schema = ⟨[]⟩)
    (hcover : ∀ f ∈ it.encoded_schema.fields, unused.contains f.id = true) :
    it.init_output_schema_dbg unused = none := by
  unfold ChunkIterator.init_output_schema_dbg
  rw [foldl_project_eq]
  simp [hflag, hout, Schema.num_fields]
  intro f hf
  simpa using hcover f hf

/-- Witness for C7: dropping all of column ids 1, 2, 3 from the 3-field
schema trips the empty-projection precondition check. -/
theorem init_output_schema_empty_projection_halts_witness :
    iter0.init_output_schema_dbg [1, 2, 3] = none :=
  init_output_schema_empty_projection_halts iter0 [1, 2, 3] rfl rfl (by decide)

/-- C8: decorator transparency of `timed_chunk_iterator` — the wrapper
forwards schema, chunk size, merged rows and close unchanged, and every
fetch variant returns exactly the inner iterator's status, chunk, row ids
and masks, the only extra effect being the addition of the elapsed time to
the external counter. -/
theorem timed_chunk_iterator_transparent (inner : InnerIterBehavior)
    (counter elapsed : Int) (chunk : Chunk) (rowid : List Nat)
    (masks : Option (List RowSourceMask)) :
    (timed_chunk_iterator inner counter).schema = inner.schema
    ∧ (timed_chunk_iterator inner counter).chunk_size = inner.chunk_size
    ∧ (timed_chunk_iterator inner counter).merged_rows = inner.merged_rows
    ∧ (timed_chunk_iterator inner counter).close
        = timed_chunk_iterator inner.close counter
    ∧ (timed_chunk_iterator inner counter).get_next elapsed chunk
        = ((inner.do_get_next chunk).1, (inner.do_get_next chunk).2,
           timed_chunk_iterator inner (counter + elapsed))
    ∧ (timed_chunk_iterator inner counter).get_next_rowid elapsed chunk rowid
        = ((inner.do_get_next_rowid chunk rowid).1,
           (inner.do_get_next_rowid chunk rowid).2.1,
           (inner.do_get_next_rowid chunk rowid).2.2,
           timed_chunk_iterator inner (counter + elapsed))
    ∧ (timed_chunk_iterator inner counter).get_next_masks elapsed chunk masks
        = ((inner.do_get_next_masks chunk masks).1,
           (inner.do_get_next_masks chunk masks).2.1,
           (inner.do_get_next_masks chunk masks).2.2,
           timed_chunk_iterator inner (counter + elapsed)) :=
  ⟨rfl, rfl, rfl, rfl, rfl, rfl, rfl⟩

/-- C9: `init_encoded_schema` does not guard against repeated invocation — a
second call with any dictionary map also returns OK and appends a second
round of encoded fields, so starting from an empty encoded schema, two calls
leave the encoded schema with twice the base schema's field count. -/
theorem init_encoded_schema_double_appends (it : ChunkIterator)
    (d1 d2 : ColumnIdToGlobalDictMap) (henc : it._encoded_schema = ⟨[]⟩) :
    (((it.init_encoded_schema d1).2).init_encoded_schema d2).1 = Status.OK
    ∧ ((((it.init_encoded_schema d1).2).init_encoded_schema d2).2)._encoded_schema.num_fields
      = 2 * it._schema.num_fields := by
  rw [init_encoded_schema_state it d1, henc]
  rw [init_encoded_schema_state]
  refine ⟨rfl, ?_⟩
  simp [Schema.num_fields, two_mul]

/-- Witness for C9: two calls on the 3-field schema (first with no
dictionary, then with a dictionary for column id 2) leave six fields in the
encoded schema member. -/
theorem init_encoded_schema_double_appends_witness :
    ((((iter0.init_encoded_schema []).2).init_encoded_schema [2]).2)._encoded_schema.num_fields
      = 6 :=
  (init_encoded_schema_double_appends iter0 [] [2] rfl).2.trans (by decide)

/-- C10: schema initialization never fails — for every iterator state and
every argument, both `init_encoded_schema` and `init_output_schema` return
the OK status. -/
theorem init_schema_always_ok (it : ChunkIterator)
    (d : ColumnIdToGlobalDictMap) (u : List Nat) :
    (it.init_encoded_schema d).1 = Status.OK
    ∧ (it.init_output_schema u).1 = Status.OK := by
  constructor
  · rfl
  · unfold ChunkIterator.init_output_schema
    by_cases h : it._is_init_output_schema <;> simp [h]

end StarRocks
